import Mathlib

/-!
Verification of the mpris.py command-line MPRIS2 client.

The single source file `mpris.py` is shallowly embedded below.  Remote
dbus behaviour (service names on the bus, `Properties.Get` results,
method-call results) is an input to the program, modelled as an oracle
record `Remote`; printed lines and issued remote calls are collected in
a `Trace`, and the process result (explicit `exit(n)`, falling off the
end of the script, or dying with an uncaught Python exception) is an
`Outcome`.
-/

namespace Mpris

/-- A dbus remote-call error (`dbus.exceptions.DBusException`): carries the
dbus error name (what `get_dbus_name()` returns) and a human message. -/
structure DBusErr where
  dbusName : String
  message : String
deriving DecidableEq, Repr

/-- The Python exceptions the embedded program can die with. -/
inductive PyExc where
  | indexError
  | attributeError
  | dbusException (e : DBusErr)
deriving DecidableEq, Repr

/-- Track metadata, the known keys of the loosely-typed dbus metadata dict
read by the `status` command: `mpris:length`, `xesam:title`, `xesam:url`,
`xesam:artist`.  `none` models an absent key (`dict.get` returning `None`). -/
structure Metadata where
  length : Option Int
  title : Option String
  url : Option String
  artist : Option (List String)
deriving DecidableEq, Repr

/-- A loosely-typed dbus value as returned by `Properties.Get`. -/
inductive DVal where
  | str (s : String)
  | int (i : Int)
  | boolv (b : Bool)
  | dict (m : Metadata)
deriving DecidableEq, Repr

/-- A remote call issued against a player service: either a
`Properties.Get` (service, interface, property name) or a method
invocation (service, method name, arguments). -/
inductive RCall where
  | getProperty (service intf prop : String)
  | callMethod (service meth : String) (margs : List String)
deriving DecidableEq, Repr

/-- Printed lines (one string per `print`) and remote player calls issued. -/
structure Trace where
  output : List String
  calls : List RCall
deriving DecidableEq, Repr

/-- How a run of the script ends: `exit(code)` / falling off the end
(exit code 0), or an uncaught Python exception. -/
inductive Outcome where
  | exited (code : Nat) (t : Trace)
  | uncaught (e : PyExc) (t : Trace)
deriving DecidableEq, Repr

/-- Parsed command-line arguments, as produced by the argparse setup:
positional `command` (default "status"), variadic `args`, `--service N`
(int, default 0), `--verbose`, `--commands`. -/
structure Args where
  command : String
  args : List String
  service : Int
  verbose : Bool
  commands : Bool
deriving DecidableEq, Repr

/-- The argparse defaults: `command="status"`, `args=[]`, `service=0`,
`verbose=False`, `commands=False`. -/
def defaultArgs : Args := ⟨"status", [], 0, false, false⟩

/-- The session-bus environment: the registered bus names, the result of
every `Properties.Get` call (service, interface, property), and the result
of every player method call (service, method, arguments).  Remote failures
are `DBusException`s, the only error class the dbus binding raises for
failed remote calls. -/
structure Remote where
  busNames : List String
  getProp : String → String → String → Except DBusErr DVal
  callMethod : String → String → List String → Except DBusErr Unit

/-- `str.startswith`, modelled on the character lists of the strings. -/
def pyStartsWith (s pat : String) : Bool :=
  pat.data.isPrefixOf s.data

/-- `str.endswith`, modelled on the character lists of the strings. -/
def pyEndsWith (s pat : String) : Bool :=
  pat.data.isSuffixOf s.data

/-- `MprisService.mpris_base`. -/
def mpris_base : String := "org.mpris.MediaPlayer2"

/-- `MprisService.player_interface`. -/
def player_interface : String := mpris_base ++ ".Player"

/-- `MprisService.tracklist_interface`. -/
def tracklist_interface : String := mpris_base ++ ".TrackList"

/-- `MprisService.playlists_interface`. -/
def playlists_interface : String := mpris_base ++ ".Playlists"

/-- `MprisService.properties_interface`. -/
def properties_interface : String := "org.freedesktop.DBus.Properties"

/-- `get_services()`: every registered bus name whose string starts with
the `org.mpris.MediaPlayer2` base, in bus order. -/
def get_services (r : Remote) : List String :=
  r.busNames.filter (fun s => pyStartsWith s mpris_base)

/-- The state of an `MprisService` object after `__init__`: the service
name plus whether the optional playlists / tracklist interface handles are
still set (`True`) or were reset to `None` by a failed probe (`False`). -/
structure MprisService where
  name : String
  playlists : Bool
  tracklist : Bool
deriving DecidableEq, Repr

/-- `MprisService.__init__(servicename)`: binds the interfaces, then probes
the optional ones — `get_playlists_property('PlaylistCount')` and
`get_tracklist_property('CanEditTracks')` (each a `Properties.Get` on the
corresponding interface).  Each probe is wrapped in
`try: ... except dbus.exceptions.DBusException:` which sets the handle to
`None`; every remote failure in this model is a `DBusErr`, so each probe
either succeeds (handle kept) or is caught (handle cleared) — construction
itself never fails.  Returns the constructed object and the two probe calls
issued. -/
def MprisService.init (g : String → String → String → Except DBusErr DVal)
    (servicename : String) : MprisService × List RCall :=
  (⟨servicename,
    (match g servicename playlists_interface "PlaylistCount" with
     | Except.ok _ => true
     | Except.error _ => false),
    (match g servicename tracklist_interface "CanEditTracks" with
     | Except.ok _ => true
     | Except.error _ => false)⟩,
   [RCall.getProperty servicename playlists_interface "PlaylistCount",
    RCall.getProperty servicename tracklist_interface "CanEditTracks"])

/-- Python `"%0Nd" % n` for a non-negative `n`: decimal digits of `n`,
left-padded with zeros to at least `width` characters. -/
def pyPad (width n : Nat) : String :=
  String.mk (List.replicate (width - (toString n).length) '0') ++ toString n

/-- Normalization loop for binary64 rounding of the fraction a/b: double
the numerator (or the denominator), tracking the base-2 scaling exponent
`e`, until `2^52 * b ≤ a < 2^53 * b`, i.e. the scaled fraction lies in
the binade of 53-bit significands.  `fuel` bounds the iterations
(structural recursion); 4200 steps cover every quotient a binary64 can
represent. -/
def fp_norm (fuel : Nat) (a b : Nat) (e : Int) : Nat × Nat × Int :=
  match fuel with
  | 0 => (a, b, e)
  | fuel + 1 =>
    if a < 2 ^ 52 * b then fp_norm fuel (2 * a) b (e - 1)
    else if 2 ^ 53 * b ≤ a then fp_norm fuel a (2 * b) (e + 1)
    else (a, b, e)

/-- `int(a / b)` for non-negative Python ints under Python 3 true
division: the exact quotient a/b is rounded to the nearest binary64
(ties to the even 53-bit significand) — CPython's long_true_divide is
correctly rounded — and `int` truncates the result (floor, as both are
non-negative).  After `fp_norm`, `q`/`r` are the quotient/remainder of
the scaled fraction, `m` the rounded significand (round up when the
remainder exceeds half of `bv`, and on a tie exactly when `q` is odd),
and the floor of `m * 2^ev` is returned.  Faithful whenever the quotient
is below the binary64 overflow threshold of about `2^1024` (Python
raises OverflowError above it — far beyond the int64 dbus range, and no
claim reaches it); division by zero never occurs at any call site. -/
def pyIntTrueDiv (a b : Nat) : Nat :=
  if a = 0 ∨ b = 0 then 0
  else
    let av := (fp_norm 4200 a b 0).1
    let bv := (fp_norm 4200 a b 0).2.1
    let ev := (fp_norm 4200 a b 0).2.2
    let q := av / bv
    let r := av % bv
    let m := if bv < 2 * r ∨ (2 * r = bv ∧ q % 2 = 1) then q + 1 else q
    if 0 ≤ ev then m * 2 ^ ev.toNat else m / 2 ^ (-ev).toNat

/-- `track_length_string(length)` from mpris.py for non-negative input.
`us = length % 1000` is an exact int operation.  `ms` comes from
`int((length / 1000) % 1000)`: `length / 1000` is binary64 true
division; the float `%` is exact for non-negative operands (fmod) and
`int` truncates, so for a non-negative float x, `int(x % 1000.0)`
equals `floor(x) mod 1000` — hence `pyIntTrueDiv length 1000 % 1000`.
`s = int(length / 1000000)` and `minutes = int(s / 60)` are direct
binary64 true divisions; the remaining subtraction and %-formatting are
exact int/string operations. -/
def track_length_string (length : Nat) : String :=
  let us := length % 1000
  let ms := pyIntTrueDiv length 1000 % 1000
  let s := pyIntTrueDiv length 1000000
  let minutes := pyIntTrueDiv s 60
  let s := s - minutes * 60
  if us ≠ 0 then
    toString minutes ++ ":" ++ pyPad 2 s ++ "." ++ pyPad 3 ms ++ pyPad 3 us
  else if ms ≠ 0 then
    toString minutes ++ ":" ++ pyPad 2 s ++ "." ++ pyPad 3 ms
  else
    toString minutes ++ ":" ++ pyPad 2 s

/-- The artist rendering of the `status` command: start from the
placeholder `'[Unknown]'`; if `meta.get('xesam:artist')` is truthy (a
non-empty list), pop the first element and append each remaining element
with `', '` (the deque/while loop, here a fold). -/
def renderArtist (artists : Option (List String)) : String :=
  match artists with
  | none => "[Unknown]"
  | some [] => "[Unknown]"
  | some (a :: rest) => rest.foldl (fun acc x => acc ++ ", " ++ x) a

/-- Python `a or b` on two optional strings, with Python truthiness:
`None` and the empty string are falsy.  Used for
`meta.get('xesam:title') or meta.get('xesam:url')`. -/
def pyOrStr (a b : Option String) : Option String :=
  match a with
  | some s => if s = "" then b else some s
  | none => b

/-- Python `"%s"` of an optional string: `None` prints as "None". -/
def pyShowOptStr : Option String → String
  | some s => s
  | none => "None"

/-- Python `"%s"` of a bool: "True" / "False". -/
def pyBoolStr (b : Bool) : String := if b then "True" else "False"

/-- Python `str()` of a dbus value, used by `print(status)`.  Exact for the
string and integer cases — the only ones the MPRIS schema yields for
`PlaybackStatus`; the remaining cases are loose placeholders. -/
def dval_str : DVal → String
  | DVal.str s => s
  | DVal.int i => toString i
  | DVal.boolv b => pyBoolStr b
  | DVal.dict _ => "<dict>"

/-- The integer behind a dbus `Position` value, clamped into `Nat` for
`track_length_string` (the MPRIS schema types `Position` as int64; no
claim exercises a negative or non-integer position). -/
def dvalToNat : DVal → Nat
  | DVal.int i => i.toNat
  | _ => 0

/-- The `len_str` computation of the `status` command:
`length = meta.get('mpris:length'); len_str = ''; if length: len_str = "(%s/%s)" % ...`.
Python truthiness of `length`: `None` and `0` are falsy. -/
def len_string (length : Option Int) (pos : DVal) : String :=
  match length with
  | some l =>
      if l ≠ 0 then
        "(" ++ track_length_string (dvalToNat pos) ++ "/" ++
          track_length_string l.toNat ++ ")"
      else ""
  | none => ""

/-- The main `status` line:
`"%s: \"%s\" by %s %s" % (status, title, artist, len_str)` with
`title = meta.get('xesam:title') or meta.get('xesam:url')` and the artist
join; note the space before `len_str` is printed even when it is empty. -/
def status_line (status : String) (m : Metadata) (pos : DVal) : String :=
  status ++ ": \"" ++ pyShowOptStr (pyOrStr m.title m.url) ++ "\" by " ++
    renderArtist m.artist ++ " " ++ len_string m.length pos

/-- The verbose raw-metadata listing (`for k in meta.keys(): ...`), with
the dict iteration modelled in a fixed key order. -/
def meta_dump (m : Metadata) : List String :=
  "Raw metadata listing:" ::
  ((match m.length with
    | some l => ["  mpris:length\t= " ++ toString l]
    | none => []) ++
   (match m.title with
    | some t => ["  xesam:title\t= " ++ t]
    | none => []) ++
   (match m.url with
    | some u => ["  xesam:url\t= " ++ u]
    | none => []) ++
   (match m.artist with
    | some l => ["  xesam:artist\t= " ++ toString l]
    | none => []))

/-- Python `str()` of a `DBusException`, as printed by
`print('Unexpected error:', ex)`. -/
def dbus_err_str (e : DBusErr) : String :=
  e.dbusName ++ ": " ++ e.message

/-- The output of `_list_commands()`. -/
def list_commands_output : List String :=
  ["The following commands are supported:",
   "\tstatus\tshow player status",
   "\ttoggle\ttoggle play/pause state",
   "\tstop\tstop playback",
   "\tplay\tstart playback",
   "\tpause\tpause playback",
   "\topen URI\topen media from URI and playback"]

/-- The listing printed by the `services` command:
`"  %d: %s" % (i, s)` for each discovered service. -/
def services_listing (services : List String) : List String :=
  services.enum.map (fun p => "  " ++ toString p.1 ++ ": " ++ p.2)

/-- Python list subscript `l[i]`: a negative index counts from the end
(`i + len(l)`), and any index still out of range raises `IndexError`
(modelled as `none`). -/
def pyGetItem {α : Type} (l : List α) (i : Int) : Option α :=
  if 0 ≤ (if i < 0 then (l.length : Int) + i else i) then
    l.get? (if i < 0 then (l.length : Int) + i else i).toNat
  else none

/-- The verbose selected-service report printed right after construction. -/
def verbose_out (a : Args) (service : MprisService) : List String :=
  if a.verbose then
    ["selected service " ++ service.name,
     "  playlists support:\t" ++ pyBoolStr service.playlists,
     "  tracklist support:\t" ++ pyBoolStr service.tracklist]
  else []

/-- A `toggle`/`stop`/`play`/`pause` branch: print the announcement, then
issue the method call; a remote failure is uncaught (there is no
try/except around these calls). -/
def announce_and_call (r : Remote) (service : MprisService)
    (msg meth : String) (out0 : List String) (calls0 : List RCall) : Outcome :=
  match r.callMethod service.name meth [] with
  | Except.ok _ =>
      Outcome.exited 0 ⟨out0 ++ [msg], calls0 ++ [RCall.callMethod service.name meth []]⟩
  | Except.error e =>
      Outcome.uncaught (PyExc.dbusException e)
        ⟨out0 ++ [msg], calls0 ++ [RCall.callMethod service.name meth []]⟩

/-- The command dispatch of `__main__` (lines 162-214), run after a service
was selected and constructed.  `out0` and `calls0` are the output and the
probe calls accumulated so far. -/
def run_command (r : Remote) (a : Args) (service : MprisService)
    (out0 : List String) (calls0 : List RCall) : Outcome :=
  if a.command = "status" then
    match r.getProp service.name player_interface "PlaybackStatus" with
    | Except.error e =>
        Outcome.uncaught (PyExc.dbusException e)
          ⟨out0, calls0 ++ [RCall.getProperty service.name player_interface "PlaybackStatus"]⟩
    | Except.ok status =>
      if status = DVal.str "Playing" ∨ status = DVal.str "Paused" then
        match r.getProp service.name player_interface "Metadata" with
        | Except.error e =>
            Outcome.uncaught (PyExc.dbusException e)
              ⟨out0, calls0 ++
                [RCall.getProperty service.name player_interface "PlaybackStatus",
                 RCall.getProperty service.name player_interface "Metadata"]⟩
        | Except.ok metaV =>
          match r.getProp service.name player_interface "Position" with
          | Except.error e =>
              Outcome.uncaught (PyExc.dbusException e)
                ⟨out0, calls0 ++
                  [RCall.getProperty service.name player_interface "PlaybackStatus",
                   RCall.getProperty service.name player_interface "Metadata",
                   RCall.getProperty service.name player_interface "Position"]⟩
          | Except.ok pos =>
            match metaV with
            | DVal.dict meta =>
                Outcome.exited 0
                  ⟨out0 ++ [status_line (dval_str status) meta pos] ++
                     (if a.verbose then meta_dump meta else []),
                   calls0 ++
                    [RCall.getProperty service.name player_interface "PlaybackStatus",
                     RCall.getProperty service.name player_interface "Metadata",
                     RCall.getProperty service.name player_interface "Position"]⟩
            | _ =>
                Outcome.uncaught PyExc.attributeError
                  ⟨out0, calls0 ++
                    [RCall.getProperty service.name player_interface "PlaybackStatus",
                     RCall.getProperty service.name player_interface "Metadata",
                     RCall.getProperty service.name player_interface "Position"]⟩
      else
        Outcome.exited 0
          ⟨out0 ++ [dval_str status],
           calls0 ++ [RCall.getProperty service.name player_interface "PlaybackStatus"]⟩
  else if a.command = "toggle" then
    announce_and_call r service "toggling play/pause state" "PlayPause" out0 calls0
  else if a.command = "stop" then
    announce_and_call r service "stopping playback" "Stop" out0 calls0
  else if a.command = "play" then
    announce_and_call r service "starting playback" "Play" out0 calls0
  else if a.command = "pause" then
    announce_and_call r service "pausing playback" "Pause" out0 calls0
  else if a.command = "open" then
    match a.args with
    | [] =>
        Outcome.uncaught PyExc.indexError ⟨out0, calls0⟩
    | uri :: _ =>
      match r.callMethod service.name "OpenUri" [uri] with
      | Except.ok _ =>
          Outcome.exited 0
            ⟨out0 ++ ["opening " ++ uri],
             calls0 ++ [RCall.callMethod service.name "OpenUri" [uri]]⟩
      | Except.error e =>
        if pyEndsWith e.dbusName "UnknownMethod" then
          Outcome.exited 1
            ⟨out0 ++ ["opening " ++ uri,
              "Error: Service " ++ service.name ++
                " does not support opening URIs via MPRIS2."],
             calls0 ++ [RCall.callMethod service.name "OpenUri" [uri]]⟩
        else
          Outcome.exited 1
            ⟨out0 ++ ["opening " ++ uri, "Unexpected error: " ++ dbus_err_str e],
             calls0 ++ [RCall.callMethod service.name "OpenUri" [uri]]⟩
  else
    Outcome.exited 1 ⟨out0 ++ ["unknown command: " ++ a.command], calls0⟩

/-- The whole `__main__` body after argument parsing: `--commands` listing,
the `services` listing, service selection (Python subscript with
`IndexError` caught and turned into the "not found" message and `exit(1)`),
`MprisService` construction with its probes, the verbose report, and the
command dispatch. -/
def main_run (r : Remote) (a : Args) : Outcome :=
  if a.commands then
    Outcome.exited 0 ⟨list_commands_output, []⟩
  else if a.command = "services" then
    Outcome.exited 0 ⟨services_listing (get_services r), []⟩
  else
    match pyGetItem (get_services r) a.service with
    | none =>
        Outcome.exited 1
          ⟨["MPRIS2 service no. " ++ toString a.service ++ " not found."], []⟩
    | some sname =>
        run_command r a (MprisService.init r.getProp sname).1
          (verbose_out a (MprisService.init r.getProp sname).1)
          (MprisService.init r.getProp sname).2

/-! Spec-side definitions, written from the specification's words, for the
refinement-style claims. -/

/-- Follows the spec's words (component 4.1): the decomposition
`us = length mod 1000`, `ms = floor(length/1000) mod 1000`,
`s = floor(length/1000000)`, `minutes = floor(s/60)`,
`seconds = s - minutes*60`, and the three format cases
`"%d:%02d.%03d%03d"`, `"%d:%02d.%03d"`, `"%d:%02d"` selected on which
remainder components are non-zero. -/
def track_length_spec (length : Nat) : String :=
  let us := length % 1000
  let ms := (length / 1000) % 1000
  let s := length / 1000000
  let minutes := s / 60
  let seconds := s - minutes * 60
  if us ≠ 0 then
    toString minutes ++ ":" ++ pyPad 2 seconds ++ "." ++ pyPad 3 ms ++ pyPad 3 us
  else if ms ≠ 0 then
    toString minutes ++ ":" ++ pyPad 2 seconds ++ "." ++ pyPad 3 ms
  else
    toString minutes ++ ":" ++ pyPad 2 seconds

/-- Follows the spec's words: a list of strings joined with a separator
("renders an artist list by joining with a comma and a space"). -/
def joinWith (sep : String) : List String → String
  | [] => ""
  | [x] => x
  | x :: y :: rest => x ++ sep ++ joinWith sep (y :: rest)

/-- Modelled from the spec: the "interface/property not found" class of
remote-call failure, identified (as the source identifies error classes)
by the suffix of the dbus error name — the standard not-found names are
`...UnknownInterface`, `...UnknownProperty`, `...UnknownMethod`. -/
def isNotFoundError (e : DBusErr) : Bool :=
  pyEndsWith e.dbusName "UnknownInterface" ||
  pyEndsWith e.dbusName "UnknownProperty" ||
  pyEndsWith e.dbusName "UnknownMethod"

/-! Concrete fixtures used by witness and counterexample theorems. -/

/-- A dbus error outside the not-found class (a reply timeout). -/
def noReplyErr : DBusErr :=
  ⟨"org.freedesktop.DBus.Error.NoReply", "Did not receive a reply"⟩

/-- The standard unknown-method dbus error. -/
def unknownMethodErr : DBusErr :=
  ⟨"org.freedesktop.DBus.Error.UnknownMethod", "Method OpenUri is unknown"⟩

/-- A property oracle whose playlists probe fails with the unrelated
`NoReply` error and whose other property reads succeed. -/
def probeNoReplyGet : String → String → String → Except DBusErr DVal :=
  fun _ intf _ =>
    if intf = playlists_interface then Except.error noReplyErr
    else Except.ok (DVal.boolv true)

/-- A fixed service name for the fixtures. -/
def vlcName : String := "org.mpris.MediaPlayer2.vlc"

/-- A second fixed service name for the fixtures. -/
def mpdName : String := "org.mpris.MediaPlayer2.mpd"

/-- A bus with no MPRIS2 services at all. -/
def rNoServices : Remote :=
  ⟨[], fun _ _ _ => Except.ok (DVal.int 0), fun _ _ _ => Except.ok ()⟩

/-- A bus with one MPRIS2 service whose player reports status "Stopped"
and answers every other property read and method call successfully. -/
def rStopped : Remote :=
  ⟨[vlcName],
   fun _ _ p =>
     if p = "PlaybackStatus" then Except.ok (DVal.str "Stopped")
     else Except.ok (DVal.int 0),
   fun _ _ _ => Except.ok ()⟩

/-- A bus with one MPRIS2 service on which every method call fails with
the unknown-method error. -/
def rOpenUnknown : Remote :=
  ⟨[vlcName],
   fun _ _ _ => Except.ok (DVal.int 0),
   fun _ _ _ => Except.error unknownMethodErr⟩

/-- A bus with two MPRIS2 services (and one non-MPRIS name). -/
def rTwoServices : Remote :=
  ⟨[vlcName, "org.freedesktop.Notifications", mpdName],
   fun _ _ _ => Except.ok (DVal.int 0),
   fun _ _ _ => Except.ok ()⟩

/-- A metadata dict carrying a present `mpris:length` equal to 0. -/
def metaZeroLength : Metadata :=
  ⟨some 0, some "Some Title", none, some ["A", "B"]⟩

/-- Arguments selecting service index -1. -/
def argsServiceNeg : Args := ⟨"status", [], -1, false, false⟩

/-- Arguments for `open` with one URI argument. -/
def argsOpenUri : Args := ⟨"open", ["http://example.com/a.ogg"], 0, false, false⟩

/-- Arguments for `open` with an empty argument list. -/
def argsOpenEmpty : Args := ⟨"open", [], 0, false, false⟩

/-! Helper lemmas shared by the claim proofs. -/

theorem pyGetItem_none_of_ge {α : Type} (l : List α) (i : Int)
    (h : (l.length : Int) ≤ i) : pyGetItem l i = none := by
  have h0 : ¬ i < 0 := by omega
  have h1 : (0 : Int) ≤ i := by omega
  simp only [pyGetItem, if_neg h0, if_pos h1]
  exact List.get?_eq_none.mpr (by omega)

theorem pyGetItem_neg_in_range {α : Type} (l : List α) (i : Int)
    (hneg : i < 0) (hbound : -(l.length : Int) ≤ i) :
    pyGetItem l i = l.get? ((l.length : Int) + i).toNat := by
  simp only [pyGetItem, if_pos hneg]
  rw [if_pos (by omega)]

theorem main_run_selected (r : Remote) (a : Args) (sname : String)
    (hc : a.commands = false) (hs : a.command ≠ "services")
    (hsel : pyGetItem (get_services r) a.service = some sname) :
    main_run r a = run_command r a (MprisService.init r.getProp sname).1
      (verbose_out a (MprisService.init r.getProp sname).1)
      (MprisService.init r.getProp sname).2 := by
  simp [main_run, hc, hs, hsel]

theorem foldl_join (sep a : String) (rest : List String) :
    rest.foldl (fun acc x => acc ++ sep ++ x) a = joinWith sep (a :: rest) := by
  induction rest generalizing a with
  | nil => rfl
  | cons x xs ih =>
    rw [List.foldl_cons, ih]
    cases xs with
    | nil => rfl
    | cons y ys => simp [joinWith, String.append_assoc]

theorem fp_norm_terminal (fuel a b : Nat) (e : Int)
    (h1 : 2 ^ 52 * b ≤ a) (h2 : a < 2 ^ 53 * b) :
    fp_norm fuel a b e = (a, b, e) := by
  cases fuel with
  | zero => rfl
  | succ n =>
    unfold fp_norm
    rw [if_neg (Nat.not_lt.mpr h1), if_neg (Nat.not_le.mpr h2)]

theorem fp_norm_small (fuel a b : Nat) (e : Int)
    (ha : 0 < a) (hlt : a < 2 ^ 52 * b)
    (hfuel : 2 ^ 52 * b ≤ a * 2 ^ fuel) :
    ∃ g : Nat, 0 < g ∧
      fp_norm fuel a b e = (a * 2 ^ g, b, e - (g : Int)) ∧
      2 ^ 52 * b ≤ a * 2 ^ g ∧ a * 2 ^ g < 2 ^ 53 * b := by
  induction fuel generalizing a e with
  | zero =>
    exfalso
    simp at hfuel
    omega
  | succ n ih =>
    rw [fp_norm, if_pos hlt]
    by_cases h2 : 2 * a < 2 ^ 52 * b
    · have hf : 2 ^ 52 * b ≤ 2 * a * 2 ^ n := by
        calc 2 ^ 52 * b ≤ a * 2 ^ (n + 1) := hfuel
        _ = 2 * a * 2 ^ n := by ring
      obtain ⟨g, hg0, hrec, hge, hlt2⟩ := ih (2 * a) (e - 1) (by omega) h2 hf
      refine ⟨g + 1, by omega, ?_, ?_, ?_⟩
      · rw [hrec, Prod.mk.injEq, Prod.mk.injEq]
        refine ⟨by ring, rfl, by push_cast; ring⟩
      · calc 2 ^ 52 * b ≤ 2 * a * 2 ^ g := hge
        _ = a * 2 ^ (g + 1) := by ring
      · calc a * 2 ^ (g + 1) = 2 * a * 2 ^ g := by ring
        _ < 2 ^ 53 * b := hlt2
    · have hub : 2 * a < 2 ^ 53 * b := by
        have h3 : (2 : Nat) ^ 53 * b = 2 * (2 ^ 52 * b) := by ring
        omega
      rw [fp_norm_terminal n (2 * a) b (e - 1) (Nat.not_lt.mp h2) hub]
      refine ⟨1, Nat.one_pos, ?_, ?_, ?_⟩
      · rw [Prod.mk.injEq, Prod.mk.injEq]
        refine ⟨by ring, rfl, by push_cast; ring⟩
      · calc 2 ^ 52 * b ≤ 2 * a := Nat.not_lt.mp h2
        _ = a * 2 ^ 1 := by ring
      · calc a * 2 ^ 1 = 2 * a := by ring
        _ < 2 ^ 53 * b := hub

theorem pyIntTrueDiv_eq_div (a b : Nat) (hb : 0 < b) (hb64 : b ≤ 2 ^ 64)
    (ha : a < 2 ^ 52) :
    pyIntTrueDiv a b = a / b := by
  rcases Nat.eq_zero_or_pos a with rfl | hapos
  · simp [pyIntTrueDiv, Nat.zero_div]
  · have hlt : a < 2 ^ 52 * b := by
      calc a < 2 ^ 52 := ha
      _ = 2 ^ 52 * 1 := by ring
      _ ≤ 2 ^ 52 * b := Nat.mul_le_mul_left _ hb
    have hfuel : 2 ^ 52 * b ≤ a * 2 ^ 4200 := by
      calc 2 ^ 52 * b ≤ 2 ^ 52 * 2 ^ 64 := Nat.mul_le_mul_left _ hb64
      _ ≤ 1 * 2 ^ 4200 := by norm_num
      _ ≤ a * 2 ^ 4200 := Nat.mul_le_mul_right _ hapos
    obtain ⟨g, hg, heq, hge, hlt2⟩ := fp_norm_small 4200 a b 0 hapos hlt hfuel
    unfold pyIntTrueDiv
    rw [if_neg (by omega)]
    simp only [heq]
    have hbg : b < 2 ^ g := by
      have h1 : a * 2 ^ g < 2 ^ 52 * 2 ^ g :=
        Nat.mul_lt_mul_of_lt_of_le ha (le_refl _) (Nat.pow_pos (by norm_num))
      have h2 : 2 ^ 52 * b < 2 ^ 52 * 2 ^ g := lt_of_le_of_lt hge h1
      exact Nat.lt_of_mul_lt_mul_left h2
    have hqdiv : a * 2 ^ g / b / 2 ^ g = a / b := by
      rw [Nat.div_div_eq_div_mul, mul_comm b (2 ^ g), ← Nat.div_div_eq_div_mul,
        Nat.mul_div_cancel _ (Nat.pow_pos (by norm_num))]
    have hnotdvd : ¬ (2 ^ g ∣ a * 2 ^ g / b + 1) := by
      rintro ⟨u, hu⟩
      have hdm := Nat.div_add_mod (a * 2 ^ g) b
      have hrb : a * 2 ^ g % b < b := Nat.mod_lt _ hb
      have heq2 : a * 2 ^ g + b = b * u * 2 ^ g + a * 2 ^ g % b := by
        calc a * 2 ^ g + b
            = b * (a * 2 ^ g / b) + a * 2 ^ g % b + b := by rw [hdm]
        _ = b * (a * 2 ^ g / b + 1) + a * 2 ^ g % b := by ring
        _ = b * (2 ^ g * u) + a * 2 ^ g % b := by rw [hu]
        _ = b * u * 2 ^ g + a * 2 ^ g % b := by ring
      have h1 : (a * 2 ^ g + b) % 2 ^ g = b % 2 ^ g := by
        rw [add_comm, Nat.add_mul_mod_self_right]
      have h2 : (b * u * 2 ^ g + a * 2 ^ g % b) % 2 ^ g
          = (a * 2 ^ g % b) % 2 ^ g := by
        rw [add_comm, Nat.add_mul_mod_self_right]
      rw [heq2, h2, Nat.mod_eq_of_lt (lt_trans hrb hbg)] at h1
      rw [Nat.mod_eq_of_lt hbg] at h1
      omega
    have hev : ¬ ((0 : Int) ≤ 0 - (g : Nat)) := by omega
    rw [if_neg hev]
    have hgn : (-((0 : Int) - (g : Nat))).toNat = g := by omega
    rw [hgn]
    by_cases hrnd : b < 2 * (a * 2 ^ g % b) ∨
        (2 * (a * 2 ^ g % b) = b ∧ a * 2 ^ g / b % 2 = 1)
    · rw [if_pos hrnd, Nat.succ_div, if_neg hnotdvd, add_zero]
      exact hqdiv
    · rw [if_neg hrnd]
      exact hqdiv

/-! The claims. -/

/-- Claim C1, counterexample: the floor decomposition does not hold for
EVERY non-negative integer length.  At length 999999999999999999
(10^18 - 1, within int64) the binary64 true divisions round up across
integer boundaries — `length/1000` rounds to exactly 10^15 and
`length/1000000` to exactly 10^12 — so the program prints
"16666666666:40.000999" while the spec's exact decomposition yields
"16666666666:39.999999". -/
theorem track_length_float_rounding_diverges :
    track_length_string 999999999999999999 = "16666666666:40.000999" ∧
    track_length_spec 999999999999999999 = "16666666666:39.999999" ∧
    track_length_string 999999999999999999
      ≠ track_length_spec 999999999999999999 :=
  ⟨by decide, by decide, by decide⟩

/-- Claim C1, amended: for every length below 2^52 (about 142 years in
microseconds, so every realistic track length), `track_length_string`
decomposes the input as `us = length mod 1000`,
`ms = floor(length/1000) mod 1000`, `s = floor(length/1000000)`,
`minutes = floor(s/60)`, `seconds = s - minutes*60`, and returns
`"%d:%02d.%03d%03d" % (minutes, seconds, ms, us)` when `us ≠ 0`, else
`"%d:%02d.%03d" % (minutes, seconds, ms)` when `ms ≠ 0`, else
`"%d:%02d" % (minutes, seconds)`; at larger lengths the float divisions
can round across integer boundaries and the decomposition can fail. -/
theorem track_length_matches_spec_below_double_precision (length : Nat)
    (h : length < 2 ^ 52) :
    track_length_string length = track_length_spec length := by
  simp only [track_length_string, track_length_spec]
  rw [pyIntTrueDiv_eq_div length 1000 (by norm_num) (by norm_num) h,
      pyIntTrueDiv_eq_div length 1000000 (by norm_num) (by norm_num) h,
      pyIntTrueDiv_eq_div (length / 1000000) 60 (by norm_num) (by norm_num)
        (lt_of_le_of_lt (Nat.div_le_self _ _) h)]

/-- Witness for the amended C1 at a concrete in-range length. -/
theorem track_length_matches_spec_below_double_precision_witness :
    61000123 < 2 ^ 52 ∧
    track_length_string 61000123 = track_length_spec 61000123 :=
  ⟨by decide,
   track_length_matches_spec_below_double_precision 61000123 (by decide)⟩

/-- Claim C2: `track_length_string` returns "0:00" for 0, "0:01" for
1000000, "1:01" for 61000000, "0:00.000500" for 500, and "0:00.001500"
for 1500. -/
theorem track_length_string_examples :
    track_length_string 0 = "0:00" ∧
    track_length_string 1000000 = "0:01" ∧
    track_length_string 61000000 = "1:01" ∧
    track_length_string 500 = "0:00.000500" ∧
    track_length_string 1500 = "0:00.001500" :=
  ⟨by decide, by decide, by decide, by decide, by decide⟩

/-- Claim C6: in the `status` display, an artist list is rendered by
joining its elements with ", " (so `["A","B","C"]` gives "A, B, C"),
and an empty or absent artist field renders the placeholder
"[Unknown]"; this holds for every list of artist strings. -/
theorem artist_list_join (l : List String) :
    renderArtist (some l) =
      (if l = [] then "[Unknown]" else joinWith ", " l) ∧
    renderArtist none = "[Unknown]" := by
  refine ⟨?_, rfl⟩
  cases l with
  | nil => rfl
  | cons a rest =>
    simp only [renderArtist, List.cons_ne_nil, if_neg]
    exact foldl_join ", " a rest

/-- Claim C5, counterexample: the optional-interface probe in
`MprisService.__init__` does NOT swallow only the "not found" class of
remote error — a `NoReply` failure of the playlists probe, which is not
of the not-found class, is also swallowed: construction succeeds with
the playlists handle absent (and the tracklist handle intact). -/
theorem probe_swallows_unrelated_error :
    isNotFoundError noReplyErr = false ∧
    (MprisService.init probeNoReplyGet vlcName).1 =
      ⟨vlcName, false, true⟩ := by
  constructor
  · decide
  · decide

/-- Claim C5, amended: the optional-interface probe swallows every
remote-call (`DBusException`) failure, of any error class — a failed
probe marks the corresponding interface handle absent and construction
continues; construction always succeeds, its name is the requested
service, and the only remote interaction is the two probe reads. -/
theorem probe_swallows_every_dbus_error
    (g : String → String → String → Except DBusErr DVal) (sname : String) :
    (MprisService.init g sname).1.name = sname ∧
    ((MprisService.init g sname).1.playlists = false ↔
      ∃ e, g sname playlists_interface "PlaylistCount" = Except.error e) ∧
    ((MprisService.init g sname).1.tracklist = false ↔
      ∃ e, g sname tracklist_interface "CanEditTracks" = Except.error e) ∧
    (MprisService.init g sname).2 =
      [RCall.getProperty sname playlists_interface "PlaylistCount",
       RCall.getProperty sname tracklist_interface "CanEditTracks"] := by
  refine ⟨rfl, ?_, ?_, rfl⟩
  · cases hp : g sname playlists_interface "PlaylistCount" with
    | ok v => simp [MprisService.init, hp]
    | error e => simp [MprisService.init, hp]
  · cases ht : g sname tracklist_interface "CanEditTracks" with
    | ok v => simp [MprisService.init, ht]
    | error e => simp [MprisService.init, ht]

/-- Claim C3: with the list-commands flag unset, for every command other
than "services" and every service index at least the number of
discovered services, the program prints the error naming the requested
index, exits with status 1, and issues no remote player interaction (no
handle construction, no player call). -/
theorem service_index_out_of_range (r : Remote) (a : Args)
    (hc : a.commands = false) (hs : a.command ≠ "services")
    (hi : ((get_services r).length : Int) ≤ a.service) :
    main_run r a = Outcome.exited 1
      ⟨["MPRIS2 service no. " ++ toString a.service ++ " not found."], []⟩ := by
  have hn := pyGetItem_none_of_ge (get_services r) a.service hi
  simp [main_run, hc, hs, hn]

/-- Witness for C3: on a bus with no MPRIS2 services, the default
invocation (command "status", index 0) prints the not-found message for
index 0 and exits 1 with no remote interaction. -/
theorem service_index_out_of_range_witness :
    main_run rNoServices defaultArgs = Outcome.exited 1
      ⟨["MPRIS2 service no. 0 not found."], []⟩ := by
  have h := service_index_out_of_range rNoServices defaultArgs rfl
    (by decide) (by decide)
  exact h.trans (by decide)

/-- Claim C9: for every negative service index N with
-(number of services) ≤ N < 0, the program reports no out-of-range
error: it selects the service at position (number of services + N),
counting from the end of the discovered list, and proceeds to the
command dispatch with that service. -/
theorem negative_service_index_selects_from_end (r : Remote) (a : Args)
    (hc : a.commands = false) (hs : a.command ≠ "services")
    (hneg : a.service < 0)
    (hbound : -(((get_services r).length : Int)) ≤ a.service) :
    ∃ sname,
      (get_services r).get? (((get_services r).length : Int) + a.service).toNat
        = some sname ∧
      pyGetItem (get_services r) a.service = some sname ∧
      main_run r a = run_command r a (MprisService.init r.getProp sname).1
        (verbose_out a (MprisService.init r.getProp sname).1)
        (MprisService.init r.getProp sname).2 := by
  have hlt : (((get_services r).length : Int) + a.service).toNat
      < (get_services r).length := by omega
  refine ⟨(get_services r).get ⟨_, hlt⟩, List.get?_eq_get hlt, ?_, ?_⟩
  · rw [pyGetItem_neg_in_range _ _ hneg hbound]
    exact List.get?_eq_get hlt
  · refine main_run_selected r a _ hc hs ?_
    rw [pyGetItem_neg_in_range _ _ hneg hbound]
    exact List.get?_eq_get hlt

/-- Witness for C9: with two discovered services and index -1, the last
service is selected and the run proceeds with it. -/
theorem negative_service_index_witness :
    ∃ sname,
      (get_services rTwoServices).get?
        (((get_services rTwoServices).length : Int) + argsServiceNeg.service).toNat
        = some sname ∧
      pyGetItem (get_services rTwoServices) argsServiceNeg.service = some sname ∧
      main_run rTwoServices argsServiceNeg =
        run_command rTwoServices argsServiceNeg
          (MprisService.init rTwoServices.getProp sname).1
          (verbose_out argsServiceNeg (MprisService.init rTwoServices.getProp sname).1)
          (MprisService.init rTwoServices.getProp sname).2 :=
  negative_service_index_selects_from_end rTwoServices argsServiceNeg rfl
    (by decide) (by decide) (by decide)

/-- Claim C7: for the `status` command (non-verbose), whenever the remote
PlaybackStatus is neither "Playing" nor "Paused", the program prints
exactly the raw status string and nothing else, and reads no metadata:
the only remote calls are the two construction probes and the
PlaybackStatus read. -/
theorem status_other_prints_raw (r : Remote) (a : Args) (sname st : String)
    (hc : a.commands = false) (hcmd : a.command = "status")
    (hv : a.verbose = false)
    (hsel : pyGetItem (get_services r) a.service = some sname)
    (hst : r.getProp sname player_interface "PlaybackStatus"
      = Except.ok (DVal.str st))
    (h1 : st ≠ "Playing") (h2 : st ≠ "Paused") :
    main_run r a = Outcome.exited 0
      ⟨[st],
       [RCall.getProperty sname playlists_interface "PlaylistCount",
        RCall.getProperty sname tracklist_interface "CanEditTracks",
        RCall.getProperty sname player_interface "PlaybackStatus"]⟩ := by
  rw [main_run_selected r a sname hc (by rw [hcmd]; decide) hsel]
  simp [run_command, hcmd, MprisService.init, verbose_out, hv, hst,
    dval_str, h1, h2]

/-- Witness for C7: one service reporting status "Stopped"; the default
`status` invocation prints exactly "Stopped" after the two probes and
the status read. -/
theorem status_other_prints_raw_witness :
    main_run rStopped defaultArgs = Outcome.exited 0
      ⟨["Stopped"],
       [RCall.getProperty vlcName playlists_interface "PlaylistCount",
        RCall.getProperty vlcName tracklist_interface "CanEditTracks",
        RCall.getProperty vlcName player_interface "PlaybackStatus"]⟩ :=
  status_other_prints_raw rStopped defaultArgs vlcName "Stopped" rfl rfl rfl
    (by decide) rfl (by decide) (by decide)

/-- Claim C4: for the `open` command with one URI argument, a remote
OpenUri failure of the unknown-method error class produces the dedicated
"does not support opening URIs" message and exit status 1, and any other
remote failure produces the generic "Unexpected error" message with the
underlying detail and exit status 1. -/
theorem open_uri_error_reporting (r : Remote) (a : Args)
    (sname uri : String) (rest : List String) (e : DBusErr)
    (hc : a.commands = false) (hcmd : a.command = "open")
    (hv : a.verbose = false)
    (hsel : pyGetItem (get_services r) a.service = some sname)
    (hargs : a.args = uri :: rest)
    (herr : r.callMethod sname "OpenUri" [uri] = Except.error e) :
    (pyEndsWith e.dbusName "UnknownMethod" = true →
      main_run r a = Outcome.exited 1
        ⟨["opening " ++ uri,
          "Error: Service " ++ sname ++
            " does not support opening URIs via MPRIS2."],
         [RCall.getProperty sname playlists_interface "PlaylistCount",
          RCall.getProperty sname tracklist_interface "CanEditTracks",
          RCall.callMethod sname "OpenUri" [uri]]⟩) ∧
    (pyEndsWith e.dbusName "UnknownMethod" = false →
      main_run r a = Outcome.exited 1
        ⟨["opening " ++ uri, "Unexpected error: " ++ dbus_err_str e],
         [RCall.getProperty sname playlists_interface "PlaylistCount",
          RCall.getProperty sname tracklist_interface "CanEditTracks",
          RCall.callMethod sname "OpenUri" [uri]]⟩) := by
  rw [main_run_selected r a sname hc (by rw [hcmd]; decide) hsel]
  constructor <;> intro hEnd <;>
    simp [run_command, hcmd, MprisService.init, verbose_out, hv, hargs,
      herr, hEnd]

/-- Witness for C4: a service whose OpenUri fails with the standard
unknown-method error; the `open` command prints the dedicated message
and exits 1. -/
theorem open_uri_error_reporting_witness :
    pyEndsWith unknownMethodErr.dbusName "UnknownMethod" = true ∧
    main_run rOpenUnknown argsOpenUri = Outcome.exited 1
      ⟨["opening " ++ "http://example.com/a.ogg",
        "Error: Service " ++ vlcName ++
          " does not support opening URIs via MPRIS2."],
       [RCall.getProperty vlcName playlists_interface "PlaylistCount",
        RCall.getProperty vlcName tracklist_interface "CanEditTracks",
        RCall.callMethod vlcName "OpenUri" ["http://example.com/a.ogg"]]⟩ :=
  ⟨by decide,
   (open_uri_error_reporting rOpenUnknown argsOpenUri vlcName
      "http://example.com/a.ogg" [] unknownMethodErr rfl rfl rfl
      (by decide) rfl rfl).1 (by decide)⟩

/-- Claim C10: for the `open` command with an empty argument list, the
unguarded subscript of the first argument raises an IndexError that the
DBusException handler does not catch: the run ends with an uncaught
exception, printing neither of the two defined open-command error
messages (non-verbose: nothing at all). -/
theorem open_without_args_uncaught (r : Remote) (a : Args) (sname : String)
    (hc : a.commands = false) (hcmd : a.command = "open")
    (hv : a.verbose = false)
    (hsel : pyGetItem (get_services r) a.service = some sname)
    (hargs : a.args = []) :
    main_run r a = Outcome.uncaught PyExc.indexError
      ⟨[], [RCall.getProperty sname playlists_interface "PlaylistCount",
            RCall.getProperty sname tracklist_interface "CanEditTracks"]⟩ := by
  rw [main_run_selected r a sname hc (by rw [hcmd]; decide) hsel]
  simp [run_command, hcmd, MprisService.init, verbose_out, hv, hargs]

/-- Witness for C10: `open` with no arguments against the one-service bus
dies with an uncaught IndexError and prints nothing. -/
theorem open_without_args_uncaught_witness :
    main_run rStopped argsOpenEmpty = Outcome.uncaught PyExc.indexError
      ⟨[], [RCall.getProperty vlcName playlists_interface "PlaylistCount",
            RCall.getProperty vlcName tracklist_interface "CanEditTracks"]⟩ :=
  open_without_args_uncaught rStopped argsOpenEmpty vlcName rfl rfl rfl
    (by decide) rfl

/-- Claim C8: in the `status` display, a present `mpris:length` equal to 0
is treated exactly like an absent length — the length value is truthiness
tested, so the "(elapsed/total)" duration string is empty and the printed
status line coincides with the one for a metadata dict without a length. -/
theorem zero_length_treated_as_absent (st : String) (m : Metadata)
    (pos : DVal) (hm : m.length = some 0) :
    len_string m.length pos = "" ∧
    status_line st m pos = status_line st ⟨none, m.title, m.url, m.artist⟩ pos := by
  refine ⟨by simp [len_string, hm], ?_⟩
  simp [status_line, len_string, hm]

/-- Witness for C8: a concrete metadata dict with `mpris:length = 0`
renders an empty duration string and the same line as without a length. -/
theorem zero_length_treated_as_absent_witness :
    len_string metaZeroLength.length (DVal.int 42) = "" ∧
    status_line "Playing" metaZeroLength (DVal.int 42) =
      status_line "Playing"
        ⟨none, metaZeroLength.title, metaZeroLength.url, metaZeroLength.artist⟩
        (DVal.int 42) :=
  zero_length_treated_as_absent "Playing" metaZeroLength (DVal.int 42) rfl

end Mpris
